import Mathlib

/-!
Verification of the duyetbot/website repository.

Part 1 models the static site builder (content items, the SiteIndex
ordering, and the dual-format renderer).  The builder script itself is not
part of the checked-in sources (only the content files and prose describing
it are), so those definitions are modelled from the specification, as their
doc comments state.  Part 2 embeds the interactive demo widgets, which are
present in the sources (`src/interactive` and the unnamed component files),
as pure state-transition functions.
-/

/-- Modelled from the spec: a calendar date as carried by the `date`
frontmatter key of a content item (the builder script is missing from the
sources). -/
structure CalDate where
  year : Nat
  month : Nat
  day : Nat
deriving DecidableEq, Repr

/-- Modelled from the spec: one markdown file with frontmatter — `title`,
`date`, `description`, a filename-derived unique `slug`, and the raw
markdown `body` (spec §3, ContentItem). -/
structure ContentItem where
  title : String
  date : CalDate
  description : String
  slug : String
  body : String
deriving DecidableEq, Repr

/-- Chronological strict order on calendar dates: lexicographic on
year, month, day. -/
def dateLt (a b : CalDate) : Prop :=
  a.year < b.year ∨
    (a.year = b.year ∧ (a.month < b.month ∨ (a.month = b.month ∧ a.day < b.day)))

instance : DecidableRel dateLt := fun a b => by
  unfold dateLt
  exact inferInstance

theorem dateLt_trichotomy (a b : CalDate) : dateLt a b ∨ a = b ∨ dateLt b a := by
  obtain ⟨y₁, m₁, d₁⟩ := a
  obtain ⟨y₂, m₂, d₂⟩ := b
  simp only [dateLt, CalDate.mk.injEq]
  omega

theorem dateLt_trans {a b c : CalDate} (hab : dateLt a b) (hbc : dateLt b c) :
    dateLt a c := by
  obtain ⟨y₁, m₁, d₁⟩ := a
  obtain ⟨y₂, m₂, d₂⟩ := b
  obtain ⟨y₃, m₃, d₃⟩ := c
  simp only [dateLt] at *
  omega

theorem dateLt_asymm {a b : CalDate} (hab : dateLt a b) : ¬ dateLt b a := by
  obtain ⟨y₁, m₁, d₁⟩ := a
  obtain ⟨y₂, m₂, d₂⟩ := b
  simp only [dateLt] at *
  omega

/-- Modelled from the spec: the SiteIndex ordering — date descending,
ties broken by slug ascending (spec §4.3, §5, §8). -/
def indexLE (a b : ContentItem) : Prop :=
  dateLt b.date a.date ∨ (a.date = b.date ∧ a.slug ≤ b.slug)

instance : DecidableRel indexLE := fun a b => by
  unfold indexLE
  exact inferInstance

instance : IsTotal ContentItem indexLE := by
  constructor
  intro a b
  rcases dateLt_trichotomy a.date b.date with h | h | h
  · exact Or.inr (Or.inl h)
  · rcases le_total a.slug b.slug with hs | hs
    · exact Or.inl (Or.inr ⟨h, hs⟩)
    · exact Or.inr (Or.inr ⟨h.symm, hs⟩)
  · exact Or.inl (Or.inl h)

instance : IsTrans ContentItem indexLE := by
  constructor
  intro a b c hab hbc
  rcases hab with hab | ⟨hdab, hsab⟩
  · rcases hbc with hbc | ⟨hdbc, _⟩
    · exact Or.inl (dateLt_trans hbc hab)
    · exact Or.inl (hdbc ▸ hab)
  · rcases hbc with hbc | ⟨hdbc, hsbc⟩
    · exact Or.inl (hdab ▸ hbc)
    · exact Or.inr ⟨hdab.trans hdbc, le_trans hsab hsbc⟩

theorem indexLE_antisymm_key {a b : ContentItem}
    (hab : indexLE a b) (hba : indexLE b a) :
    a.date = b.date ∧ a.slug = b.slug := by
  rcases hab with hab | ⟨hdab, hsab⟩
  · rcases hba with hba | ⟨hdba, _⟩
    · exact absurd hba (dateLt_asymm hab)
    · exact absurd (hdba ▸ hab) (fun h => dateLt_asymm h h)
  · rcases hba with hba | ⟨_, hsba⟩
    · exact absurd (hdab ▸ hba) (fun h => dateLt_asymm h h)
    · exact ⟨hdab, le_antisymm hsab hsba⟩

/-- Modelled from the spec: the SiteIndex sort applied wholesale on every
build — a stable sort by `indexLE` (spec §3 SiteIndex, §5). -/
def sortIndex (items : List ContentItem) : List ContentItem :=
  List.insertionSort indexLE items

/-- Modelled from the spec: rendering a calendar date in the normalized
metadata header. -/
def showDate (d : CalDate) : String :=
  toString d.year ++ "-" ++ toString d.month ++ "-" ++ toString d.day

/-- Modelled from the spec: one line of the discovery index — title,
one-line description, canonical path (spec §6). -/
def discoveryLine (it : ContentItem) : String :=
  "- [" ++ it.title ++ "](/blog/" ++ it.slug ++ ".md): " ++ it.description

/-- Modelled from the spec: the discovery index document, a plain-text
index of every page under a Recent Posts heading, date descending
(spec §6). -/
def buildDiscovery (items : List ContentItem) : String :=
  "# Recent Posts\n\n" ++
    String.intercalate "\n" (List.map discoveryLine (sortIndex items))

/-- Modelled from the spec: one entry of the feed document. -/
def feedEntry (it : ContentItem) : String :=
  "<item><title>" ++ it.title ++ "</title><link>/blog/" ++ it.slug ++
    ".html</link><pubDate>" ++ showDate it.date ++ "</pubDate></item>"

/-- Modelled from the spec: the reverse-chronological feed document over
the same page set (spec §4.3, §6). -/
def buildFeed (items : List ContentItem) : String :=
  "<rss>" ++ String.intercalate "" (List.map feedEntry (sortIndex items)) ++ "</rss>"

/-- Modelled from the spec: the sitemap document, a flat list of canonical
URLs for all published pages (spec §6). -/
def buildSitemap (items : List ContentItem) : String :=
  String.intercalate "\n" (List.map (fun it => "/blog/" ++ it.slug ++ ".html") (sortIndex items))

/-- The scenario item of spec §8: dated 2026-02-14, slug `a`. -/
def itemA : ContentItem :=
  ⟨"Post A", ⟨2026, 2, 14⟩, "first scenario post", "a", "body a"⟩

/-- The scenario item of spec §8: dated 2026-02-16, slug `b`. -/
def itemB : ContentItem :=
  ⟨"Post B", ⟨2026, 2, 16⟩, "second scenario post", "b", "body b"⟩

/-- Claim C1: over the full set of valid content items the discovery
index, feed, and sitemap list the pages by `indexLE` — a total order
(total, transitive, antisymmetric on the date/slug key): date descending,
equal dates broken by slug ascending; the sort is a permutation of the
input; rebuilding over already-sorted input is idempotent, so a second
build over unchanged input produces byte-identical discovery, feed, and
sitemap documents; and for items dated 2026-02-16 (slug b) and 2026-02-14
(slug a) the discovery index lists b before a. -/
theorem siteIndex_total_order_sorted_idempotent :
    (∀ a b : ContentItem, indexLE a b ∨ indexLE b a) ∧
    (∀ a b c : ContentItem, indexLE a b → indexLE b c → indexLE a c) ∧
    (∀ a b : ContentItem, indexLE a b → indexLE b a →
      a.date = b.date ∧ a.slug = b.slug) ∧
    (∀ items : List ContentItem, List.Sorted indexLE (sortIndex items)) ∧
    (∀ items : List ContentItem, List.Perm (sortIndex items) items) ∧
    (∀ items : List ContentItem,
      sortIndex (sortIndex items) = sortIndex items ∧
      buildDiscovery (sortIndex items) = buildDiscovery items ∧
      buildFeed (sortIndex items) = buildFeed items ∧
      buildSitemap (sortIndex items) = buildSitemap items) ∧
    sortIndex [itemA, itemB] = [itemB, itemA] ∧
    buildDiscovery [itemA, itemB] =
      "# Recent Posts\n\n" ++ discoveryLine itemB ++ "\n" ++ discoveryLine itemA := by
  have hsorted : ∀ items : List ContentItem, List.Sorted indexLE (sortIndex items) :=
    fun items => List.sorted_insertionSort indexLE items
  have hidem : ∀ items : List ContentItem, sortIndex (sortIndex items) = sortIndex items :=
    fun items => (hsorted items).insertionSort_eq
  refine ⟨fun a b => IsTotal.total a b,
    fun a b c hab hbc => IsTrans.trans a b c hab hbc,
    fun a b hab hba => indexLE_antisymm_key hab hba,
    hsorted,
    fun items => List.perm_insertionSort indexLE items,
    fun items => ⟨hidem items, ?_, ?_, ?_⟩,
    by decide, by decide⟩
  · simp only [buildDiscovery, hidem items]
  · simp only [buildFeed, hidem items]
  · simp only [buildSitemap, hidem items]

/-- Witness for C1: the transitivity and antisymmetry components applied
at concrete content items. -/
theorem siteIndex_total_order_witness :
    indexLE itemB itemA ∧ (itemA.date = itemA.date ∧ itemA.slug = itemA.slug) := by
  have h := siteIndex_total_order_sorted_idempotent
  have haa : indexLE itemA itemA := Or.inr ⟨rfl, le_refl itemA.slug⟩
  exact ⟨h.2.1 itemB itemA itemA (by decide) haa, h.2.2.1 itemA itemA haa haa⟩

/-- Modelled from the spec: the shared template set — base, nav, and
footer chrome (spec §4.2). -/
structure Templates where
  base : String
  nav : String
  footer : String
deriving DecidableEq, Repr

/-- Modelled from the spec: the two output extensions of a rendered page
(spec §3 RenderedPage: same logical path, differing only by extension). -/
inductive PageExt where
  | html
  | md
deriving DecidableEq, Repr

/-- Modelled from the spec: an output path — a logical stem plus one of
the two extensions. -/
structure OutPath where
  stem : String
  ext : PageExt
deriving DecidableEq, Repr

/-- Modelled from the spec: output pair produced from one ContentItem —
an HTML document and a markdown document (spec §3 RenderedPage). -/
structure RenderedPage where
  html : String
  md : String
deriving DecidableEq, Repr

/-- Modelled from the spec: the HTML wrapping — the converted body
substituted into the base/nav/footer template chain (spec §4.2). -/
def htmlWrap (tpl : Templates) (convertedBody : String) : String :=
  tpl.base ++ tpl.nav ++ convertedBody ++ tpl.footer

/-- Modelled from the spec: the normalized metadata header
(title/date/description) prepended on the markdown path (spec §4.2). -/
def metadataHeader (it : ContentItem) : String :=
  "# " ++ it.title ++ "\n\n" ++ showDate it.date ++ "\n\n" ++ it.description

/-- Modelled from the spec: the markdown wrapping — the original body
re-emitted under the normalized metadata header, no HTML conversion
(spec §4.2). -/
def mdWrap (it : ContentItem) (body : String) : String :=
  metadataHeader it ++ "\n\n" ++ body

/-- Modelled from the spec: the dual-format renderer — one ContentItem,
one markdown-to-HTML conversion, one template set, producing the output
pair; the single `it.body` string feeds both paths (spec §4.2). -/
def renderPage (conv : String → String) (tpl : Templates) (it : ContentItem) :
    RenderedPage :=
  ⟨htmlWrap tpl (conv it.body), mdWrap it it.body⟩

/-- Modelled from the spec: the filesystem writes for one content item —
the HTML document and the markdown document at the same stem, emitted
together (spec §3, §6). -/
def pageWrites (conv : String → String) (tpl : Templates) (it : ContentItem) :
    List (OutPath × String) :=
  [(⟨it.slug, PageExt.html⟩, (renderPage conv tpl it).html),
   (⟨it.slug, PageExt.md⟩, (renderPage conv tpl it).md)]

/-- Modelled from the spec: the writes of a whole build — every item's
page writes in sequence (spec §5: load, render each item, write). -/
def siteWrites (conv : String → String) (tpl : Templates) :
    List ContentItem → List (OutPath × String)
  | [] => []
  | it :: rest => pageWrites conv tpl it ++ siteWrites conv tpl rest

/-- Claim C2: for every build, an HTML output at some stem is written
exactly when the markdown output at that stem is written — neither exists
without the other — and for every item one byte-identical body string
(`it.body`) feeds both outputs, only the wrapping differing. -/
theorem renderedPage_dual_output :
    (∀ (conv : String → String) (tpl : Templates) (items : List ContentItem)
        (stem : String),
      (OutPath.mk stem PageExt.html) ∈ (siteWrites conv tpl items).map Prod.fst ↔
      (OutPath.mk stem PageExt.md) ∈ (siteWrites conv tpl items).map Prod.fst) ∧
    (∀ (conv : String → String) (tpl : Templates) (it : ContentItem),
      ∃ body : String, body = it.body ∧
        (renderPage conv tpl it).html = htmlWrap tpl (conv body) ∧
        (renderPage conv tpl it).md = mdWrap it body) := by
  constructor
  · intro conv tpl items stem
    induction items with
    | nil => simp [siteWrites]
    | cons it rest ih =>
      simp only [siteWrites, pageWrites, List.map_append, List.mem_append,
        List.map_cons, List.map_nil, List.mem_cons, List.not_mem_nil, or_false,
        OutPath.mk.injEq, and_true, reduceCtorEq, and_false, false_or]
      rw [ih]
  · intro conv tpl it
    exact ⟨it.body, rfl, rfl, rfl⟩

/-- One entry of the `tabs` array of the demo shell
(src/interactive/app/page.tsx lines 14-20). -/
structure TabInfo where
  id : String
  label : String
  icon : String
deriving DecidableEq, Repr

/-- The `tabs` array of the demo shell (src/interactive/app/page.tsx
lines 14-20). -/
def tabs : List TabInfo :=
  [⟨"playground", "🎮 Playground", "🎮"⟩,
   ⟨"status", "📊 Status", "📊"⟩,
   ⟨"features", "⚡ Features", "⚡"⟩,
   ⟨"config", "⚙️ Config", "⚙️"⟩,
   ⟨"feedback", "💬 Feedback", "💬"⟩]

/-- The initial `activeTab` state: `useState of playground`
(src/interactive/app/page.tsx line 12). -/
def initialActiveTab : String := "playground"

/-- The tab click handler: `onClick sets setActiveTab to tab.id` replaces
the active tab by the clicked id, unconditionally
(src/interactive/app/page.tsx line 54). -/
def clickTab (id : String) (_current : String) : String := id

/-- The six widget components composed by the shell
(src/interactive/app/page.tsx imports, lines 4-9). -/
inductive Widget where
  | chatDemo
  | statusDashboard
  | featureComparison
  | configPreview
  | feedbackForm
  | testimonialsWidget
deriving DecidableEq, Repr

/-- The conditional rendering of the content area: each conjunct
`activeTab === id && widget` of src/interactive/app/page.tsx lines 75-84
contributes its widgets exactly when the tab matches; the feedback branch
wraps FeedbackForm and Testimonials in one grid. -/
def renderedWidgets (activeTab : String) : List Widget :=
  (if activeTab = "playground" then [Widget.chatDemo] else []) ++
  (if activeTab = "status" then [Widget.statusDashboard] else []) ++
  (if activeTab = "features" then [Widget.featureComparison] else []) ++
  (if activeTab = "config" then [Widget.configPreview] else []) ++
  (if activeTab = "feedback" then [Widget.feedbackForm, Widget.testimonialsWidget] else [])

/-- Claim C3: the demo shell's tab state machine has exactly the five
states playground, status, features, config, feedback; its initial state
is playground; and clicking a tab sets the active state directly to that
tab, with no guard on the current state. -/
theorem demoShell_tab_state_machine :
    tabs.map TabInfo.id = ["playground", "status", "features", "config", "feedback"] ∧
    initialActiveTab = "playground" ∧
    ∀ id current : String, clickTab id current = id :=
  ⟨rfl, rfl, fun _ _ => rfl⟩

/-- Counterexample to claim C4 as stated: `feedback` is one of the shell's
tab states, yet the page renders two widget subtrees for it (FeedbackForm
and Testimonials), not exactly one. -/
theorem feedback_tab_renders_two_widgets :
    "feedback" ∈ tabs.map TabInfo.id ∧
    renderedWidgets "feedback" = [Widget.feedbackForm, Widget.testimonialsWidget] ∧
    (renderedWidgets "feedback").length ≠ 1 := by
  refine ⟨by decide, by decide, by decide⟩

/-- Claim C4 (amended): each of the tab states playground, status,
features, and config renders exactly one owned widget subtree; the
feedback state renders exactly two (FeedbackForm and Testimonials); no
widgets are rendered for a string outside the five tab states. -/
theorem renderedWidgets_per_tab :
    renderedWidgets "playground" = [Widget.chatDemo] ∧
    renderedWidgets "status" = [Widget.statusDashboard] ∧
    renderedWidgets "features" = [Widget.featureComparison] ∧
    renderedWidgets "config" = [Widget.configPreview] ∧
    renderedWidgets "feedback" = [Widget.feedbackForm, Widget.testimonialsWidget] ∧
    (∀ t : String, t ∈ tabs.map TabInfo.id →
      (renderedWidgets t).length = if t = "feedback" then 2 else 1) ∧
    (∀ t : String, t ∉ tabs.map TabInfo.id → renderedWidgets t = []) := by
  refine ⟨by decide, by decide, by decide, by decide, by decide, ?_, ?_⟩
  · intro t ht
    simp only [tabs, List.map_cons, List.map_nil, List.mem_cons, List.not_mem_nil,
      or_false] at ht
    rcases ht with h | h | h | h | h <;> subst h <;> decide
  · intro t ht
    simp only [tabs, List.map_cons, List.map_nil, List.mem_cons, List.not_mem_nil,
      or_false, not_or] at ht
    obtain ⟨h₁, h₂, h₃, h₄, h₅⟩ := ht
    simp [renderedWidgets, h₁, h₂, h₃, h₄, h₅]

/-- Witness for the amended C4: the per-tab count at the status tab and
the empty rendering at a string that is not a tab state. -/
theorem renderedWidgets_per_tab_witness :
    (renderedWidgets "status").length = 1 ∧ renderedWidgets "unknown" = [] := by
  have h := renderedWidgets_per_tab
  have h₁ := h.2.2.2.2.2.1 "status" (by decide)
  have h₂ := h.2.2.2.2.2.2 "unknown" (by decide)
  refine ⟨?_, h₂⟩
  simpa using h₁

/-- One testimonial record (src/unnamed/part_000 lines 179-186). -/
structure Testimonial where
  id : Nat
  name : String
  role : String
  content : String
  rating : Nat
  avatar : String
deriving DecidableEq, Repr

/-- The `testimonials` array (src/unnamed/part_000 lines 188-221). -/
def testimonials : List Testimonial :=
  [⟨1, "Duyet Le", "Creator & Maintainer",
    "duyetbot has transformed how I work. The agent routing feature is incredible - it automatically handles both quick questions and complex technical challenges.",
    5, "👨‍💻"⟩,
   ⟨2, "Alex Chen", "Data Engineer",
    "The code debugging capabilities are outstanding. It saved me hours on a complex data pipeline issue. The @complex agent really shines for technical work.",
    5, "👨‍🔬"⟩,
   ⟨3, "Sarah Kim", "Developer",
    "Love the automation features! The bot handles my daily reports, monitoring, and even helps with blog posts. It feels like having a real teammate.",
    5, "👩‍💼"⟩,
   ⟨4, "Marcus Johnson", "DevOps Engineer",
    "The system status dashboard is exactly what I needed. Real-time monitoring of all services with clear health indicators. Makes incident response much faster.",
    5, "👨‍🚀"⟩]

/-- The carousel's component state: `currentIndex` (a JS number, embedded
as Int) and `isPaused` (src/unnamed/part_000 lines 224-225). -/
structure CarouselState where
  currentIndex : Int
  isPaused : Bool
deriving DecidableEq, Repr

/-- The initial carousel state: index 0, not paused
(src/unnamed/part_000 lines 224-225). -/
def initialCarousel : CarouselState := ⟨0, false⟩

/-- One firing of the 5-second auto-advance timer: the effect returns
early while `isPaused` (no interval exists then), otherwise the interval
body replaces the index by `(prev + 1) % testimonials.length`
(src/unnamed/part_000 lines 227-235). -/
def carouselTick (s : CarouselState) : CarouselState :=
  if s.isPaused then s
  else { s with currentIndex := (s.currentIndex + 1) % (testimonials.length : Int) }

/-- The dot click handler `goToSlide` (src/unnamed/part_000
lines 237-239). -/
def goToSlide (index : Int) (s : CarouselState) : CarouselState :=
  { s with currentIndex := index }

/-- The previous-arrow handler `goToPrevious`:
`(prev - 1 + testimonials.length) % testimonials.length`
(src/unnamed/part_000 lines 241-245). -/
def goToPrevious (s : CarouselState) : CarouselState :=
  { s with currentIndex :=
      (s.currentIndex - 1 + (testimonials.length : Int)) % (testimonials.length : Int) }

/-- The next-arrow handler `goToNext`:
`(prev + 1) % testimonials.length` (src/unnamed/part_000 lines 247-249). -/
def goToNext (s : CarouselState) : CarouselState :=
  { s with currentIndex := (s.currentIndex + 1) % (testimonials.length : Int) }

/-- The hover handlers: onMouseEnter sets `isPaused := true`, onMouseLeave
sets it back (src/unnamed/part_000 lines 279-283). -/
def setPaused (p : Bool) (s : CarouselState) : CarouselState :=
  { s with isPaused := p }

/-- Claim C5: the carousel holds 4 items; starting from the initial state,
each untouched timer firing replaces index i by (i + 1) % 4, so after 3
firings the shown index is 3; hovering (isPaused) keeps the index fixed
across timer firings, and entering the hover itself does not move the
index. -/
theorem testimonials_autoadvance_and_pause :
    testimonials.length = 4 ∧
    (carouselTick^[3] initialCarousel).currentIndex = 3 ∧
    (∀ i : Int, carouselTick ⟨i, false⟩ = ⟨(i + 1) % 4, false⟩) ∧
    (∀ i : Int, carouselTick ⟨i, true⟩ = ⟨i, true⟩) ∧
    (∀ s : CarouselState, (setPaused true s).currentIndex = s.currentIndex) := by
  refine ⟨by decide, by decide, ?_, ?_, fun s => rfl⟩
  · intro i
    simp [carouselTick, testimonials]
  · intro i
    simp [carouselTick]

/-- The in-bounds invariant for the carousel index: the lookup
`testimonials brackets currentIndex` is valid. -/
def indexInBounds (s : CarouselState) : Prop :=
  0 ≤ s.currentIndex ∧ s.currentIndex < (testimonials.length : Int)

/-- Claim C8: every carousel state update — timer tick, goToNext,
goToPrevious, and goToSlide with any dot index 0..3 — preserves
0 ≤ currentIndex < 4, so indexing `testimonials` at `currentIndex` is
always within bounds; in particular goToPrevious at index 0 yields 3,
not -1. -/
theorem carousel_index_in_bounds :
    (∀ s : CarouselState, indexInBounds s → indexInBounds (carouselTick s)) ∧
    (∀ s : CarouselState, indexInBounds (goToNext s)) ∧
    (∀ s : CarouselState, indexInBounds (goToPrevious s)) ∧
    (∀ (s : CarouselState) (j : Int),
      0 ≤ j → j < (testimonials.length : Int) → indexInBounds (goToSlide j s)) ∧
    (∀ s : CarouselState, indexInBounds s → s.currentIndex.toNat < testimonials.length) ∧
    (goToPrevious ⟨0, false⟩).currentIndex = 3 := by
  have hlen : (testimonials.length : Int) = 4 := by decide
  have hmod : ∀ n : Int, 0 ≤ n % 4 ∧ n % 4 < 4 := fun n =>
    ⟨Int.emod_nonneg n (by decide), Int.emod_lt_of_pos n (by decide)⟩
  refine ⟨?_, ?_, ?_, ?_, ?_, by decide⟩
  · intro s hs
    by_cases hp : s.isPaused
    · simpa [carouselTick, hp] using hs
    · simpa [carouselTick, hp, indexInBounds, hlen] using hmod (s.currentIndex + 1)
  · intro s
    simpa [goToNext, indexInBounds, hlen] using hmod (s.currentIndex + 1)
  · intro s
    simpa [goToPrevious, indexInBounds, hlen] using hmod (s.currentIndex - 1 + 4)
  · intro s j h₀ h₁
    exact ⟨h₀, h₁⟩
  · intro s hs
    obtain ⟨h₀, h₁⟩ := hs
    have : (testimonials.length : Int) = 4 := hlen
    omega

/-- Witness for C8: the invariant-preservation components applied at the
concrete state with index 2, unpaused, and the dot index 1. -/
theorem carousel_index_in_bounds_witness :
    indexInBounds (carouselTick ⟨2, false⟩) ∧
    indexInBounds (goToSlide 1 ⟨2, false⟩) ∧
    (⟨2, false⟩ : CarouselState).currentIndex.toNat < testimonials.length := by
  have h := carousel_index_in_bounds
  have hinv : indexInBounds (⟨2, false⟩ : CarouselState) := by
    constructor <;> decide
  exact ⟨h.1 ⟨2, false⟩ hinv,
    h.2.2.2.1 ⟨2, false⟩ 1 (by decide) (by decide),
    h.2.2.2.2.1 ⟨2, false⟩ hinv⟩

/-- The two message kinds of the chat demo
(src/interactive/components/ChatDemo.tsx lines 5-10). -/
inductive MessageType where
  | user
  | bot
deriving DecidableEq, Repr

/-- One chat message; `id` and `timestamp` come from `Date.now` at send
time, embedded as a Nat clock (src/interactive/components/ChatDemo.tsx
lines 5-10). -/
structure ChatMessage where
  id : Nat
  type : MessageType
  content : String
  timestamp : Nat
deriving DecidableEq, Repr

/-- The chat demo's component state: the message list, the controlled
input, the typing flag, plus the number of simulated-reply callbacks
currently scheduled by setTimeout
(src/interactive/components/ChatDemo.tsx lines 21-31, 57-68). -/
structure ChatState where
  messages : List ChatMessage
  input : String
  isTyping : Bool
  pendingReplies : Nat
deriving DecidableEq, Repr

/-- The send guard of handleSend: `if not input.trim then return`
(src/interactive/components/ChatDemo.tsx line 43).  The JS trimmed string
is falsy exactly when every character of the input is whitespace, which is
how the guard is embedded here (Lean's own trim does not reduce in the
kernel). -/
def isBlank (input : String) : Bool :=
  input.toList.all Char.isWhitespace

/-- handleSend (src/interactive/components/ChatDemo.tsx lines 41-68):
return unchanged when the input is blank; otherwise append the user
message, clear the input, raise the typing flag, and schedule one
simulated bot reply. -/
def handleSend (now : Nat) (s : ChatState) : ChatState :=
  if isBlank s.input then s
  else
    { messages := s.messages ++ [⟨now, MessageType.user, s.input, now⟩],
      input := "",
      isTyping := true,
      pendingReplies := s.pendingReplies + 1 }

/-- Claim C10: for every chat input that is empty or whitespace-only,
submitting the chat form leaves the component state entirely unchanged —
no user message appended, no bot reply scheduled, the input not cleared,
and the typing indicator still off whenever it was off. -/
theorem handleSend_blank_input_noop :
    ∀ (now : Nat) (s : ChatState), isBlank s.input = true →
      handleSend now s = s ∧
      (handleSend now s).messages = s.messages ∧
      (handleSend now s).pendingReplies = s.pendingReplies ∧
      (handleSend now s).input = s.input ∧
      (handleSend now s).isTyping = s.isTyping := by
  intro now s h
  have hs : handleSend now s = s := by simp [handleSend, h]
  exact ⟨hs, by rw [hs], by rw [hs], by rw [hs], by rw [hs]⟩

/-- Witness for C10: a whitespace-only input at the initial chat state
leaves the state unchanged. -/
theorem handleSend_blank_input_noop_witness :
    handleSend 7 ⟨[⟨1, MessageType.bot, "hello", 0⟩], "   ", false, 0⟩ =
      ⟨[⟨1, MessageType.bot, "hello", 0⟩], "   ", false, 0⟩ :=
  (handleSend_blank_input_noop 7
    ⟨[⟨1, MessageType.bot, "hello", 0⟩], "   ", false, 0⟩ (by decide)).1

/-- The feedback form's data record (src/unnamed/part_001 lines 5-11). -/
structure FeedbackData where
  name : String
  email : String
  rating : Nat
  category : String
  message : String
deriving DecidableEq, Repr

/-- The initial feedback state (src/unnamed/part_001 lines 15-21). -/
def initialFeedback : FeedbackData := ⟨"", "", 5, "general", ""⟩

/-- The browser-level submission gate: the name, email, and message fields
carry the `required` attribute (src/unnamed/part_001 lines 89, 106, 153),
so the form's submit event is delivered only when all three are
non-empty. -/
def requiredFieldsFilled (f : FeedbackData) : Bool :=
  f.name != "" && f.email != "" && f.message != ""

/-- Submission of the feedback form: when the required-field gate passes,
handleSubmit runs and sets `submitted := true`, the success state that
renders the thank-you view (src/unnamed/part_001 lines 31-36, 53-65);
when the gate blocks, the state is unchanged and the form is redisplayed. -/
def submitFeedback (submitted : Bool) (f : FeedbackData) : Bool :=
  if requiredFieldsFilled f then true else submitted

/-- Claim C6: the feedback form rejects submission when the message field
is empty (the submitted state is unchanged), and accepts it — clearing to
the success state `submitted = true` — when name, email, and message are
all populated. -/
theorem feedbackForm_requires_fields :
    (∀ (submitted : Bool) (f : FeedbackData), f.message = "" →
      submitFeedback submitted f = submitted) ∧
    (∀ (submitted : Bool) (f : FeedbackData),
      f.name ≠ "" → f.email ≠ "" → f.message ≠ "" →
      submitFeedback submitted f = true) := by
  constructor
  · intro submitted f h
    simp [submitFeedback, requiredFieldsFilled, h]
  · intro submitted f h₁ h₂ h₃
    simp [submitFeedback, requiredFieldsFilled, h₁, h₂, h₃]

/-- Witness for C6: an empty message blocks submission at the initial
state, and a fully populated form is accepted. -/
theorem feedbackForm_requires_fields_witness :
    submitFeedback false ⟨"Ada", "ada@example.com", 5, "general", ""⟩ = false ∧
    submitFeedback false ⟨"Ada", "ada@example.com", 4, "bug", "great bot"⟩ = true := by
  exact ⟨feedbackForm_requires_fields.1 false
      ⟨"Ada", "ada@example.com", 5, "general", ""⟩ rfl,
    feedbackForm_requires_fields.2 false
      ⟨"Ada", "ada@example.com", 4, "bug", "great bot"⟩
      (by decide) (by decide) (by decide)⟩

/-- The config widget's state record (src/interactive/components/
ConfigPreview.tsx lines 5-12); `temperature` is a JS number stepped in
tenths, embedded exactly as a rational. -/
structure Config where
  model : String
  temperature : Rat
  maxTokens : Nat
  streaming : Bool
  thinking : Bool
  agentRouting : Bool
deriving DecidableEq, Repr

/-- The initial configuration (src/interactive/components/
ConfigPreview.tsx lines 15-22), also restored by the reset button
(lines 275-283). -/
def initialConfig : Config :=
  ⟨"zai/glm-4.7", (7 : Rat) / 10, 4096, true, false, true⟩

/-- The three boolean keys ever passed to toggleSetting
(src/interactive/components/ConfigPreview.tsx lines 159, 184, 209). -/
inductive ToggleKey where
  | streaming
  | thinking
  | agentRouting
deriving DecidableEq, Repr

/-- toggleSetting: spread the previous config and negate the addressed
key (src/interactive/components/ConfigPreview.tsx lines 30-32). -/
def toggleSetting (key : ToggleKey) (c : Config) : Config :=
  match key with
  | ToggleKey.streaming => { c with streaming := !c.streaming }
  | ToggleKey.thinking => { c with thinking := !c.thinking }
  | ToggleKey.agentRouting => { c with agentRouting := !c.agentRouting }

/-- The boolean field addressed by a toggle key. -/
def boolField (key : ToggleKey) (c : Config) : Bool :=
  match key with
  | ToggleKey.streaming => c.streaming
  | ToggleKey.thinking => c.thinking
  | ToggleKey.agentRouting => c.agentRouting

/-- The model-select onChange handler (src/interactive/components/
ConfigPreview.tsx line 80). -/
def setModel (m : String) (c : Config) : Config := { c with model := m }

/-- The temperature-slider onChange handler (src/interactive/components/
ConfigPreview.tsx lines 107-109). -/
def setTemperature (t : Rat) (c : Config) : Config := { c with temperature := t }

/-- The max-tokens-slider onChange handler (src/interactive/components/
ConfigPreview.tsx lines 135-137). -/
def setMaxTokens (n : Nat) (c : Config) : Config := { c with maxTokens := n }

/-- The `parameters` object of the generated snapshot
(src/interactive/components/ConfigPreview.tsx lines 38-41). -/
structure ConfigParameters where
  temperature : Rat
  max_tokens : Nat
deriving DecidableEq, Repr

/-- The `capabilities` object of the generated snapshot
(src/interactive/components/ConfigPreview.tsx lines 42-46). -/
structure ConfigCapabilities where
  streaming : Bool
  thinking : Bool
  agent_routing : Bool
deriving DecidableEq, Repr

/-- The `runtime` object of the generated snapshot
(src/interactive/components/ConfigPreview.tsx lines 47-51). -/
structure ConfigRuntime where
  host : String
  node : String
  shell : String
deriving DecidableEq, Repr

/-- The generated settings snapshot (src/interactive/components/
ConfigPreview.tsx lines 34-53). -/
structure ConfigSnapshot where
  agent : String
  model : String
  parameters : ConfigParameters
  capabilities : ConfigCapabilities
  runtime : ConfigRuntime
deriving DecidableEq, Repr

/-- generateConfigPreview: the snapshot is rebuilt from the current config
on every call (src/interactive/components/ConfigPreview.tsx
lines 34-53). -/
def generateConfigPreview (config : Config) : ConfigSnapshot :=
  ⟨"main", config.model,
   ⟨config.temperature, config.maxTokens⟩,
   ⟨config.streaming, config.thinking, config.agentRouting⟩,
   ⟨"openclaw", "v22.22.0", "bash"⟩⟩

/-- Claim C7: for every configuration state, the generated settings
snapshot is a pure function of that state — its model, temperature, and
max_tokens fields equal the currently selected values at the moment of
generation, including immediately after any model, temperature, or token
update, with no stale cached values. -/
theorem configPreview_reflects_current_state :
    ∀ c : Config,
      (generateConfigPreview c).model = c.model ∧
      (generateConfigPreview c).parameters.temperature = c.temperature ∧
      (generateConfigPreview c).parameters.max_tokens = c.maxTokens ∧
      (generateConfigPreview c).capabilities =
        ⟨c.streaming, c.thinking, c.agentRouting⟩ ∧
      (∀ m : String, (generateConfigPreview (setModel m c)).model = m) ∧
      (∀ t : Rat,
        (generateConfigPreview (setTemperature t c)).parameters.temperature = t) ∧
      (∀ n : Nat,
        (generateConfigPreview (setMaxTokens n c)).parameters.max_tokens = n) :=
  fun _ => ⟨rfl, rfl, rfl, rfl, fun _ => rfl, fun _ => rfl, fun _ => rfl⟩

/-- Claim C9: toggleSetting negates exactly the addressed boolean key and
leaves every other field of the configuration — model, temperature,
maxTokens, and the other two booleans — unchanged. -/
theorem toggleSetting_frame :
    ∀ (c : Config) (k : ToggleKey),
      boolField k (toggleSetting k c) = !(boolField k c) ∧
      (toggleSetting k c).model = c.model ∧
      (toggleSetting k c).temperature = c.temperature ∧
      (toggleSetting k c).maxTokens = c.maxTokens ∧
      ∀ k₂ : ToggleKey, k₂ ≠ k →
        boolField k₂ (toggleSetting k c) = boolField k₂ c := by
  intro c k
  cases k <;>
    exact ⟨rfl, rfl, rfl, rfl, by
      intro k₂ hk
      cases k₂ <;> first | rfl | exact absurd rfl hk⟩

/-- Witness for C9: toggling streaming at the initial configuration flips
streaming and leaves the thinking flag and the model unchanged. -/
theorem toggleSetting_frame_witness :
    boolField ToggleKey.streaming
        (toggleSetting ToggleKey.streaming initialConfig) =
      !(boolField ToggleKey.streaming initialConfig) ∧
    boolField ToggleKey.thinking
        (toggleSetting ToggleKey.streaming initialConfig) =
      boolField ToggleKey.thinking initialConfig ∧
    (toggleSetting ToggleKey.streaming initialConfig).model =
      initialConfig.model := by
  have h := toggleSetting_frame initialConfig ToggleKey.streaming
  exact ⟨h.1, h.2.2.2.2 ToggleKey.thinking (by decide), h.2.1⟩
